import Mathlib

/-!
Verification development for the privacy-policy scraper repository
(`main.py` and `new_main.py`, two near-duplicate implementations of the
same pipeline).  Python strings are modelled as `String` / `List Char`
(code-point lists), network effects as explicit oracle functions,
fallible Python functions as `Option`-returning Lean functions, and the
HTML DOM as the query interface the code actually consumes (anchor lists
for the resolver, a selector-to-texts map for the extractor).
-/

/-- Whitespace class of Python's `\s` and `str.strip()`, restricted to
ASCII (the unicode cases are irrelevant to every claim checked here). -/
def isSpaceChar (c : Char) : Bool :=
  c == ' ' || c == '\t' || c == '\n' || c == '\r' || c == '\x0b' || c == '\x0c'

/-- Python `str.lower()` applied to a Lean string, as a code-point list. -/
def lowerStr (s : String) : List Char :=
  s.data.map Char.toLower

/-- Python `s.startswith(p)` on code-point lists: first argument is the prefix
pattern, second the scanned string. -/
def listStartsWith : List Char → List Char → Bool
  | [], _ => true
  | _ :: _, [] => false
  | p :: ps, c :: cs => p == c && listStartsWith ps cs

/-- Python `str.strip()`: drop leading and trailing whitespace. -/
def pyStrip (l : List Char) : List Char :=
  ((l.dropWhile isSpaceChar).reverse.dropWhile isSpaceChar).reverse

/-- The test `url.startswith(('http://', 'https://'))`, the exact (case-sensitive)
test made by `normalize_url` in both source files. -/
def startsHttp (u : String) : Bool :=
  listStartsWith ("http://".data) u.data || listStartsWith ("https://".data) u.data

/-- Function `normalize_url` from `main.py` line 31 and `new_main.py` line 36:
prepend `https://` unless the input already starts with `http://` or
`https://`. -/
def normalize_url (url : String) : String :=
  if startsHttp url then url else "https://" ++ url

/-- Split a URL at the first `://`: returns the scheme part including the
separator, and the remainder.  Helper for the `urljoin` model. -/
def splitScheme : List Char → Option (List Char × List Char)
  | [] => none
  | ':' :: '/' :: '/' :: rest => some ([':', '/', '/'], rest)
  | c :: rest => (splitScheme rest).map (fun pr => (c :: pr.1, pr.2))

/-- Keep a path up to and including its last `/` (empty if it has none).
Helper for merging relative references in `urljoin`. -/
def dropLastSeg (path : List Char) : List Char :=
  ((path.reverse).dropWhile (fun c => c != '/')).reverse

/-- Models `urllib.parse.urljoin` for the URL shapes this scraper
produces: empty references, absolute references carrying a scheme,
root-relative references (leading `/`), and simple relative references
without dot-segments, queries or fragments.  Protocol-relative `//host`
references and dot-segment resolution are outside the model; no claim
depends on them. -/
def urljoin (base href : String) : String :=
  let b := base.data
  let h := href.data
  String.mk (
    if h = [] then b
    else if (splitScheme h).isSome then h
    else
      match splitScheme b with
      | none => h
      | some pr =>
        let host := pr.2.takeWhile (fun c => c != '/')
        let path := pr.2.dropWhile (fun c => c != '/')
        if h.head? = some '/' then pr.1 ++ host ++ h
        else
          pr.1 ++ host ++ (
            let p := dropLastSeg path
            if p = [] then '/' :: h else p ++ h))

/-- Atom of the tiny regular-expression language the scraper's patterns
need: a literal character, or an optional character class (`[xy]?`). -/
inductive RAtom where
  | lit (c : Char)
  | opt (cs : List Char)
deriving DecidableEq

/-- A pattern is a sequence of atoms. -/
abbrev RE := List RAtom

/-- Does the pattern match some prefix of the character list?  The `opt`
atom may consume zero or one character; only existence of a match
matters to the scraper (`re.search` used in boolean position). -/
def matchesAt : RE → List Char → Bool
  | [], _ => true
  | RAtom.lit _ :: _, [] => false
  | RAtom.lit c :: ps, d :: ds => c == d && matchesAt ps ds
  | RAtom.opt cs :: ps, ds =>
    matchesAt ps ds ||
      (match ds with
       | [] => false
       | d :: ds2 => cs.contains d && matchesAt ps ds2)

/-- Python `re.search(p, s)` as a boolean: the pattern matches starting at some
position of `s`. -/
def reSearch (p : RE) (l : List Char) : Bool :=
  (l.tails).any (fun suf => matchesAt p suf)

/-- Literal pattern from a string. -/
def reLit (s : String) : RE :=
  s.data.map RAtom.lit

/-- The `[_-]?` fragment appearing in several patterns. -/
def optSep : RAtom := RAtom.opt ['_', '-']

/-- Pattern `privacy[_-]?policy`. -/
def patPrivacyPolicy : RE := reLit "privacy" ++ [optSep] ++ reLit "policy"

/-- Pattern `privacy[_-]?statement`. -/
def patPrivacyStatement : RE := reLit "privacy" ++ [optSep] ++ reLit "statement"

/-- Pattern `privacy[_-]?notice`. -/
def patPrivacyNotice : RE := reLit "privacy" ++ [optSep] ++ reLit "notice"

/-- Pattern `data[_-]?protection`. -/
def patDataProtection : RE := reLit "data" ++ [optSep] ++ reLit "protection"

/-- Pattern `privacy`. -/
def patPrivacy : RE := reLit "privacy"

/-- Pattern `legal/privacy`. -/
def patLegalPrivacy : RE := reLit "legal/privacy"

/-- Pattern `about/privacy`. -/
def patAboutPrivacy : RE := reLit "about/privacy"

/-- Pattern `support/privacy`. -/
def patSupportPrivacy : RE := reLit "support/privacy"

/-- List `privacy_patterns` of `main.py` lines 46-55, in source order. -/
def mainPatterns : List RE :=
  [patPrivacyPolicy, patPrivacyStatement, patPrivacyNotice,
   patDataProtection, patPrivacy, patLegalPrivacy,
   patAboutPrivacy, patSupportPrivacy]

/-- List `patterns` of `new_main.py` line 49, in source order. -/
def newPatterns : List RE :=
  [patPrivacy, patDataProtection, patLegalPrivacy]

/-- An anchor element with an `href` attribute: `href` is the raw
attribute value, `text` the visible text already extracted with
`get_text(strip=True)` (the form both resolvers consume). -/
structure Anchor where
  href : String
  text : String
deriving DecidableEq

/-- Network oracle for one resolver run.  `get url` returns the anchors
of the fetched page, or `none` when the GET fails (connection error,
timeout, or the non-2xx status that `raise_for_status` turns into an
exception).  `head url` returns the HEAD status code, or `none` for a
transport error (swallowed by the inner `except` in both sources). -/
structure Net where
  get : String → Option (List Anchor)
  head : String → Option Nat

/-- The per-anchor test of `main.py` lines 59-64 / `new_main.py` lines
51-53: lower-case href and visible text, and search each pattern in
either string.  The source returns on the first pattern that hits, which
is observationally `List.any`. -/
def anchorMatch (pats : List RE) (a : Anchor) : Bool :=
  pats.any (fun p => reSearch p (lowerStr a.href) || reSearch p (lowerStr a.text))

/-- Strategy 1 of both resolvers (`main.py` lines 58-67, `new_main.py`
lines 50-54): walk the anchors in document order and return
`urljoin(base, href)` of the first anchor that matches some pattern. -/
def scanAnchors (pats : List RE) (base : String) : List Anchor → Option String
  | [] => none
  | a :: rest =>
    if anchorMatch pats a then some (urljoin base a.href)
    else scanAnchors pats base rest

/-- Strategy 2 of both resolvers (`main.py` lines 84-92, `new_main.py`
lines 61-67): HEAD-probe each candidate path in order; return the first
whose status is exactly 200; any other status or transport error moves
on to the next path. -/
def probePaths (net : Net) (base : String) : List String → Option String
  | [] => none
  | p :: ps =>
    match net.head (urljoin base p) with
    | some 200 => some (urljoin base p)
    | _ => probePaths net base ps

/-- The resolver shared by both sources, parameterised by the pattern
and fallback-path lists (the only data on which the two files differ):
normalize the site, GET it (failure → `none` with no fallback), scan
anchors, then HEAD-probe the fallback paths. -/
def findPolicyUrlWith (pats : List RE) (paths : List String) (net : Net) (site : String) :
    Option String :=
  let base := normalize_url site
  match net.get base with
  | none => none
  | some anchors =>
    match scanAnchors pats base anchors with
    | some u => some u
    | none => probePaths net base paths

/-- List `common_paths` of `main.py` lines 70-82, in source order. -/
def mainPaths : List String :=
  ["/privacy-policy", "/privacy", "/privacy-statement", "/privacy-notice",
   "/legal/privacy", "/about/privacy", "/support/privacy", "/privacy.html",
   "/privacy.php", "/terms-and-privacy", "/legal/privacy-policy"]

/-- List `fallback_paths` of `new_main.py` lines 57-60, in source order. -/
def newPaths : List String :=
  ["/privacy", "/privacy-policy", "/legal/privacy", "/privacy.html", "/privacy.php"]

/-- Function `find_privacy_policy_url` of `main.py` lines 37-98. -/
def find_privacy_policy_url (net : Net) (site : String) : Option String :=
  findPolicyUrlWith mainPatterns mainPaths net site

/-- Function `find_policy_url` of `new_main.py` lines 41-71. -/
def find_policy_url (net : Net) (site : String) : Option String :=
  findPolicyUrlWith newPatterns newPaths net site

/-- The fold both extractors run over one selector's matched nodes
(`main.py` lines 128-131, `new_main.py` lines 86-89): keep the longest
per-node text seen so far, first-seen winning ties. -/
def bestOf (acc : List Char) (ts : List (List Char)) : List Char :=
  ts.foldl (fun a t => if a.length < t.length then t else a) acc

/-- Primary content strategy of `main.py` lines 124-132: on the first
selector with at least one matched node, fold that selector's node texts
and stop (`break` is unconditional inside `if elements`). -/
def primaryMain (doc : String → List (List Char)) : List String → List Char → List Char
  | [], acc => acc
  | sel :: rest, acc =>
    if doc sel = [] then primaryMain doc rest acc
    else bestOf acc (doc sel)

/-- Primary content strategy of `new_main.py` lines 83-91: fold every
selector's node texts into the running candidate, stopping only once the
candidate is non-empty (`if content: break`). -/
def primaryNew (doc : String → List (List Char)) : List String → List Char → List Char
  | [], acc => acc
  | sel :: rest, acc =>
    let acc2 := bestOf acc (doc sel)
    if acc2 = [] then primaryNew doc rest acc2
    else acc2

/-- List `content_selectors` of `main.py` lines 112-122, in source order. -/
def mainSelectors : List String :=
  ["main", "[role=\"main\"]", ".main-content", ".content", ".policy-content",
   ".privacy-policy", ".legal-content", "article", ".container"]

/-- List `selectors` of `new_main.py` line 82, in source order. -/
def newSelectors : List String :=
  ["main", "[role=\"main\"]", ".content", ".policy-content", "article"]

/-- Index of the first `'\n'` in a list, if any. -/
def firstNl : List Char → Option Nat
  | [] => none
  | c :: cs => if c = '\n' then some 0 else (firstNl cs).map (fun i => i + 1)

/-- Index of the last `'\n'` in a list, if any. -/
def lastNl : List Char → Option Nat
  | [] => none
  | c :: cs =>
    match lastNl cs with
    | some k => some (k + 1)
    | none => if c = '\n' then some 0 else none

/-- Effect of `re.sub(r'\n\s*\n', '\n\n', ·)` on one maximal whitespace
run: the greedy match starts at the run's first newline and, after
backtracking for the final mandatory `\n`, ends at its last newline, so
a run holding two distinct newlines is rewritten to its pre-first-newline
part, two newlines, and its post-last-newline part; other runs are
unchanged.  Matches cannot span a non-whitespace character, so runs are
rewritten independently. -/
def flushRun (r : List Char) : List Char :=
  match firstNl r, lastNl r with
  | some i, some k =>
    if i < k then r.take i ++ '\n' :: '\n' :: r.drop (k + 1) else r
  | _, _ => r

/-- Single pass of `re.sub(r'\n\s*\n', '\n\n', ·)` (`main.py` line 143):
buffer the current maximal whitespace run and rewrite it with
`flushRun` when it ends. -/
def sub1Go (buf : List Char) : List Char → List Char
  | [] => flushRun buf
  | c :: cs =>
    if isSpaceChar c then sub1Go (buf ++ [c]) cs
    else flushRun buf ++ c :: sub1Go [] cs

/-- Substitution `re.sub(r'\n\s*\n', '\n\n', ·)` of `main.py` line 143. -/
def sub1 (l : List Char) : List Char :=
  sub1Go [] l

/-- Single pass of `re.sub(r'\s+', ' ', ·)` (`main.py` line 144): each
maximal whitespace run becomes one space; the flag records whether the
scan is inside a run. -/
def collapseWsFlag : Bool → List Char → List Char
  | _, [] => []
  | b, c :: cs =>
    if isSpaceChar c then
      if b then collapseWsFlag true cs else ' ' :: collapseWsFlag true cs
    else c :: collapseWsFlag false cs

/-- Substitution `re.sub(r'\s+', ' ', ·)` of `main.py` line 144. -/
def collapseWs (l : List Char) : List Char :=
  collapseWsFlag false l

/-- The whole clean-up step of `main.py` lines 142-144: newline-pair
rewriting followed by whitespace collapsing.  No trimming occurs. -/
def postProcessMain (l : List Char) : List Char :=
  collapseWs (sub1 l)

/-- Rewrite of one maximal newline run by `re.sub(r'\n{2,}', '\n\n', ·)`:
runs of two or more newlines become exactly two. -/
def emitNl (n : Nat) : List Char :=
  if 2 ≤ n then ['\n', '\n'] else List.replicate n '\n'

/-- Single pass of `re.sub(r'\n{2,}', '\n\n', ·)` (`new_main.py` line
97), counting the pending newline run. -/
def subNl2Go (run : Nat) : List Char → List Char
  | [] => emitNl run
  | c :: cs =>
    if c = '\n' then subNl2Go (run + 1) cs
    else emitNl run ++ c :: subNl2Go 0 cs

/-- Substitution `re.sub(r'\n{2,}', '\n\n', ·)` of `new_main.py` line 97. -/
def subNl2 (l : List Char) : List Char :=
  subNl2Go 0 l

/-- The whole clean-up step of `new_main.py` line 97: newline-run
collapsing followed by `str.strip()`.  Whitespace runs other than
newline runs are left intact. -/
def postProcessNew (l : List Char) : List Char :=
  pyStrip (subNl2 l)

/-- Truncation marker of `main.py` line 148. -/
def markerMain : List Char := ("... [Content truncated]").data

/-- Truncation marker of `new_main.py` line 98. -/
def markerNew : List Char := ("... [Truncated]").data

/-- Truncation step of `main.py` lines 146-148: texts longer than 50000
characters are cut to 50000 and the marker is appended. -/
def truncMain (s : List Char) : List Char :=
  if 50000 < s.length then s.take 50000 ++ markerMain else s

/-- Truncation step of `new_main.py` line 98:
`cleaned[:50000] + ("... [Truncated]" if len(cleaned) > 50000 else "")`. -/
def truncNew (s : List Char) : List Char :=
  s.take 50000 ++ (if 50000 < s.length then markerNew else [])

/-- DOM oracle for one policy page after the unwanted elements are
decomposed: `sel` maps a CSS selector to the texts of its matched nodes
(each `get_text(separator='\n', strip=True)`, document order), and
`fallbackTexts` lists the per-node texts the fallback strategy would
collect (the two sources query different tag sets there; the oracle
carries the result either way). -/
structure PageDoc where
  sel : String → List (List Char)
  fallbackTexts : List (List Char)

/-- Python `"\n".join` of the non-empty fallback texts. -/
def joinNl (ts : List (List Char)) : List Char :=
  List.intercalate ['\n'] (ts.filter (fun t => t ≠ []))

/-- Function `get_policy_text` of `main.py` lines 100-155 over a page oracle
(`getDoc url = none` models a failed GET or a parsing exception):
primary strategy, fallback join, clean-up, truncation. -/
def get_policy_text (getDoc : String → Option PageDoc) (url : String) :
    Option (List Char) :=
  match getDoc url with
  | none => none
  | some doc =>
    let c1 := primaryMain doc.sel mainSelectors []
    let c2 := if c1 = [] then joinNl doc.fallbackTexts else c1
    some (truncMain (postProcessMain c2))

/-- Function `extract_policy_text` of `new_main.py` lines 73-101 over a page
oracle. -/
def extract_policy_text (getDoc : String → Option PageDoc) (url : String) :
    Option (List Char) :=
  match getDoc url with
  | none => none
  | some doc =>
    let c1 := primaryNew doc.sel newSelectors []
    let c2 := if c1 = [] then joinNl doc.fallbackTexts else c1
    some (truncNew (postProcessNew c2))

/-- One terminal record of the pipeline (`_result` in `new_main.py`,
the dict literals in `main.py`).  `text` is kept as a code-point list;
the other fields are compared only literally. -/
structure ResultR where
  company : String
  site : String
  policy_url : String
  text : List Char
  status : String
deriving DecidableEq

/-- Function `scrape_single_site` of `main.py` lines 157-205, with the resolver,
the extractor, and the company-name derivation (`tldextract` plus
`capitalize`) passed as oracles.  `if policy_url:` and
`if text and len(text.strip()) > 100:` are Python truthiness tests, so
the empty string falls into the failure branches exactly as `None`
does. -/
def scrape_single_site (resolve : String → Option String)
    (getText : String → Option (List Char)) (cf : String → String)
    (site : String) : ResultR :=
  match resolve site with
  | some pu =>
    if pu = "" then
      { company := cf site, site := site, policy_url := "", text := [],
        status := "policy_not_found" }
    else
      match getText pu with
      | some t =>
        if t ≠ [] ∧ 100 < (pyStrip t).length then
          { company := cf site, site := site, policy_url := pu, text := t,
            status := "success" }
        else
          { company := cf site, site := site, policy_url := pu, text := [],
            status := "text_extraction_failed" }
      | none =>
        { company := cf site, site := site, policy_url := pu, text := [],
          status := "text_extraction_failed" }
  | none =>
    { company := cf site, site := site, policy_url := "", text := [],
      status := "policy_not_found" }

/-- Function `scrape_site` of `new_main.py` lines 103-121 (its happy path; the
enclosing `try` is modelled by `workerGuard` below).  The guard
`if not text or len(text.strip()) < 100` sends short text to
`text_too_short`. -/
def scrape_site (resolve : String → Option String)
    (getText : String → Option (List Char)) (cf : String → String)
    (site : String) : ResultR :=
  match resolve site with
  | none =>
    { company := cf site, site := site, policy_url := "", text := [],
      status := "not_found" }
  | some pu =>
    if pu = "" then
      { company := cf site, site := site, policy_url := "", text := [],
        status := "not_found" }
    else
      match getText pu with
      | none =>
        { company := cf site, site := site, policy_url := pu, text := [],
          status := "text_too_short" }
      | some t =>
        if t = [] ∨ (pyStrip t).length < 100 then
          { company := cf site, site := site, policy_url := pu, text := [],
            status := "text_too_short" }
        else
          { company := cf site, site := site, policy_url := pu, text := t,
            status := "success" }

/-- The `except` wrapper both workers put around their body (`main.py`
lines 197-205, `new_main.py` lines 119-121): a fault becomes a Result
with status `error: <message>`. -/
def workerGuard (cf : String → String) (site : String) :
    Except String ResultR → ResultR
  | Except.ok r => r
  | Except.error e =>
    { company := cf site, site := site, policy_url := "", text := [],
      status := "error: " ++ e }

/-- Collection step of `main.py` lines 220-238: `future.result()` either
yields the worker's Result or raises, in which case the coordinator
itself appends a Result with status `exception: <message>`. -/
def collectResult (cf : String → String) (site : String) :
    Except String ResultR → ResultR
  | Except.ok r => r
  | Except.error e =>
    { company := cf site, site := site, policy_url := "", text := [],
      status := "exception: " ++ e }

/-- Function `scrape_privacy_policies` of `main.py` lines 207-250, sequentialised:
the worker pool is modelled by collecting one (possibly faulting) worker
outcome per input site, in submission order — the spec declares
collection order meaningless, and no claim depends on it.  The source
reads the site list from the injected `websites` global; it is a
parameter here. -/
def scrape_privacy_policies (cf : String → String)
    (worker : String → Except String ResultR) (sites : List String) :
    List ResultR :=
  sites.map (fun site => collectResult cf site (worker site))

/-- Function `scrape_all` of `new_main.py` lines 133-143, sequentialised the same
way.  Its collection loop calls `future.result()` with no handler, so it
is modelled over a total worker (the worker's own `try` is
`workerGuard`). -/
def scrape_all (worker : String → ResultR) (sites : List String) : List ResultR :=
  sites.map worker

/-- A homepage whose first matching anchor (document order) is
`/legal/privacy-policy` and whose later anchor is `/privacy` — the
order-sensitivity scenario of the spec. -/
def demoAnchors : List Anchor :=
  [{ href := "/legal/privacy-policy", text := "Privacy Policy" },
   { href := "/privacy", text := "Privacy" }]

/-- A network serving `demoAnchors` at `https://example.com` and
failing every other request. -/
def demoNet : Net :=
  { get := fun u => if u = "https://example.com" then some demoAnchors else none,
    head := fun _ => none }

/-- A parsed policy page whose `main` element exists but carries empty
text, while `[role="main"]` carries the text `hello`: the document on
which the two implementations' selector loops diverge. -/
def emptyMainDoc : String → List (List Char) := fun s =>
  if s = "main" then [([] : List Char)]
  else if s = "[role=\"main\"]" then [("hello").data]
  else []

/-- A parsed page where the first two selectors match nothing and
`.content` matches two nodes with texts `abc` and `de`. -/
def contentDoc : String → List (List Char) := fun s =>
  if s = ".content" then [("abc").data, ("de").data] else []

/-- A network whose homepage carries one `/privacy` anchor. -/
def tinyPolicyNet : Net :=
  { get := fun u =>
      if u = "https://example.com" then some [{ href := "/privacy", text := "Privacy" }]
      else none,
    head := fun _ => none }

/-- A policy page whose `main` element holds only the two-character text
`hi`: a resolvable policy URL whose extracted text is far too short. -/
def tinyPolicyDoc : String → Option PageDoc := fun u =>
  if u = "https://example.com/privacy" then
    some { sel := fun s => if s = "main" then [("hi").data] else [],
           fallbackTexts := [] }
  else none

/-- Company-name oracle used with the tiny-policy scenario. -/
def cfExample : String → String := fun _ => "Example"

/-- An extractor oracle that always returns a 101-character text. -/
def longTextOracle : String → Option (List Char) := fun _ =>
  some (List.replicate 101 'b')

/-- A resolver oracle that always finds one fixed policy URL. -/
def resolveSome : String → Option String := fun _ => some "https://w.example/p"

/-- Company-name oracle used with `resolveSome`. -/
def cfW : String → String := fun _ => "W"

/-- A two-site input list whose second site's worker faults. -/
def demoSites : List String := ["ok.test", "bad.test"]

/-- A worker that faults on `bad.test` and completes elsewhere. -/
def demoWorker : String → Except String ResultR := fun s =>
  if s = "bad.test" then Except.error "boom"
  else Except.ok { company := "Ok", site := s, policy_url := "", text := [],
                   status := "policy_not_found" }

/-- Company-name oracle used with `demoWorker`. -/
def cfBatch : String → String := fun _ => "X"

/-- A GET oracle on which every request fails. -/
def getFail : String → Option (List Anchor) := fun _ => none

/-- A HEAD oracle that reports 200 for every probe — so any fallback
probing that did happen would succeed immediately. -/
def head200 : String → Option Nat := fun _ => some 200

/-- An extractor oracle that always fails. -/
def gtNone : String → Option (List Char) := fun _ => none

/-- Company-name oracle for the unreachable-site scenario. -/
def cfUnreach : String → String := fun _ => "Unreachable"

theorem strDataAppend (s t : String) : (s ++ t).data = s.data ++ t.data := by
  cases s
  cases t
  rfl

theorem listStartsWith_self_append (p l : List Char) :
    listStartsWith p (p ++ l) = true := by
  induction p with
  | nil => rfl
  | cons c cs ih => simp [listStartsWith, ih]

/-- C9: `normalize("example.com") = "https://example.com"`, inputs
already starting with `http://` or `https://` are returned unchanged,
and `normalize_url` is idempotent on every string. -/
theorem c9_normalize_idempotent :
    normalize_url "example.com" = "https://example.com"
    ∧ (∀ u : String, startsHttp u = true → normalize_url u = u)
    ∧ (∀ u : String, normalize_url (normalize_url u) = normalize_url u) := by
  refine ⟨by decide, fun u h => by simp [normalize_url, h], fun u => ?_⟩
  by_cases h : startsHttp u
  · simp [normalize_url, h]
  · have h2 : startsHttp ("https://" ++ u) = true := by
      unfold startsHttp
      rw [strDataAppend]
      have hs := listStartsWith_self_append ("https://".data) u.data
      rw [Bool.or_eq_true]
      exact Or.inr hs
    simp [normalize_url, h, h2]

theorem c9_witness :
    startsHttp "https://example.com" = true
    ∧ normalize_url "https://example.com" = "https://example.com" :=
  ⟨by decide, c9_normalize_idempotent.2.1 "https://example.com" (by decide)⟩

/-- C10: `normalize_url` tests only the literal lower-case prefixes
`http://` and `https://`; every other input — scheme-bearing or not —
comes back as `https://` prepended to the unmodified input, so nothing
is rejected and no existing scheme is stripped. -/
theorem c10_normalize_prefix_only :
    (∀ u : String, startsHttp u = false → normalize_url u = "https://" ++ u)
    ∧ normalize_url "ftp://example.com" = "https://ftp://example.com"
    ∧ normalize_url "HTTPS://example.com" = "https://HTTPS://example.com" :=
  ⟨fun u h => by simp [normalize_url, h], by decide, by decide⟩

theorem c10_witness :
    startsHttp "example.org" = false
    ∧ normalize_url "example.org" = "https://" ++ "example.org" :=
  ⟨by decide, c10_normalize_prefix_only.1 "example.org" (by decide)⟩

theorem scanAnchors_eq_find (pats : List RE) (base : String) (l : List Anchor) :
    scanAnchors pats base l
      = (l.find? (anchorMatch pats)).map (fun a => urljoin base a.href) := by
  induction l with
  | nil => rfl
  | cons a rest ih =>
    by_cases h : anchorMatch pats a
    · simp [scanAnchors, h]
    · simp [scanAnchors, h, ih]

theorem anyPerm {α : Type} {p q : List α} (h : p.Perm q) (f : α → Bool) :
    p.any f = q.any f := by
  cases hq : q.any f
  · cases hp : p.any f
    · rfl
    · obtain ⟨x, hx, hfx⟩ := List.any_eq_true.mp hp
      have hq2 : q.any f = true := List.any_eq_true.mpr ⟨x, h.mem_iff.mp hx, hfx⟩
      rw [hq] at hq2
      cases hq2
  · obtain ⟨x, hx, hfx⟩ := List.any_eq_true.mp hq
    exact List.any_eq_true.mpr ⟨x, h.mem_iff.mpr hx, hfx⟩

theorem anchorMatch_perm {p q : List RE} (h : p.Perm q) (a : Anchor) :
    anchorMatch p a = anchorMatch q a :=
  anyPerm h _

theorem scanAnchors_perm {p q : List RE} (h : p.Perm q) (base : String)
    (l : List Anchor) : scanAnchors p base l = scanAnchors q base l := by
  induction l with
  | nil => rfl
  | cons a rest ih => simp [scanAnchors, anchorMatch_perm h, ih]

theorem findPolicyUrlWith_perm {p q : List RE} (h : p.Perm q)
    (paths : List String) (net : Net) (site : String) :
    findPolicyUrlWith p paths net site = findPolicyUrlWith q paths net site := by
  unfold findPolicyUrlWith
  cases hg : net.get (normalize_url site) <;>
    simp [hg, scanAnchors_perm h]

/-- C7: the resolver returns the absolute URL of the first anchor (in
document order) whose lower-cased href or visible text matches some
pattern, with no scoring among matches — stated as an equation with
`List.find?`, lifted to both full resolvers when the homepage GET
succeeds, and instantiated on the spec's `/legal/privacy-policy` before
`/privacy` page for both pattern lists. -/
theorem c7_first_anchor_wins :
    (∀ (pats : List RE) (base : String) (l : List Anchor),
      scanAnchors pats base l
        = (l.find? (anchorMatch pats)).map (fun a => urljoin base a.href))
    ∧ (∀ (net : Net) (site : String) (anchors : List Anchor),
        net.get (normalize_url site) = some anchors →
        anchors.any (anchorMatch mainPatterns) = true →
        find_privacy_policy_url net site
          = (anchors.find? (anchorMatch mainPatterns)).map
              (fun a => urljoin (normalize_url site) a.href))
    ∧ (∀ (net : Net) (site : String) (anchors : List Anchor),
        net.get (normalize_url site) = some anchors →
        anchors.any (anchorMatch newPatterns) = true →
        find_policy_url net site
          = (anchors.find? (anchorMatch newPatterns)).map
              (fun a => urljoin (normalize_url site) a.href))
    ∧ scanAnchors mainPatterns "https://example.com" demoAnchors
        = some "https://example.com/legal/privacy-policy"
    ∧ scanAnchors newPatterns "https://example.com" demoAnchors
        = some "https://example.com/legal/privacy-policy" := by
  refine ⟨scanAnchors_eq_find, ?_, ?_, by decide, by decide⟩
  · intro net site anchors hget hany
    obtain ⟨a, ha, hma⟩ := List.any_eq_true.mp hany
    obtain ⟨b, hb⟩ :=
      Option.isSome_iff_exists.mp (List.find?_isSome.mpr ⟨a, ha, hma⟩)
    unfold find_privacy_policy_url findPolicyUrlWith
    simp [hget, scanAnchors_eq_find, hb]
  · intro net site anchors hget hany
    obtain ⟨a, ha, hma⟩ := List.any_eq_true.mp hany
    obtain ⟨b, hb⟩ :=
      Option.isSome_iff_exists.mp (List.find?_isSome.mpr ⟨a, ha, hma⟩)
    unfold find_policy_url findPolicyUrlWith
    simp [hget, scanAnchors_eq_find, hb]

theorem c7_witness :
    demoNet.get (normalize_url "example.com") = some demoAnchors
    ∧ demoAnchors.any (anchorMatch mainPatterns) = true
    ∧ find_privacy_policy_url demoNet "example.com"
        = (demoAnchors.find? (anchorMatch mainPatterns)).map
            (fun a => urljoin (normalize_url "example.com") a.href) :=
  ⟨by decide, by decide,
   c7_first_anchor_wins.2.1 demoNet "example.com" demoAnchors (by decide) (by decide)⟩

/-- C8 counterexample: contrary to the claim, no input page exists on
which permuting the pattern list changes the resolver's result — the
anchor loop is outer and the pattern test is a disjunction, so the
returned URL is invariant under every permutation of the pattern
list. -/
theorem c8_pattern_order_cex :
    ¬ ∃ (p q : List RE) (paths : List String) (net : Net) (site : String),
        p.Perm q ∧ findPolicyUrlWith p paths net site ≠ findPolicyUrlWith q paths net site := by
  rintro ⟨p, q, paths, net, site, hperm, hne⟩
  exact hne (findPolicyUrlWith_perm hperm paths net site)

/-- C8 amended: the resolver's result is invariant under permutation of
the pattern list; tie-breaking among multiple matching anchors is by
document order of the anchors, never by pattern order. -/
theorem c8_pattern_order_irrelevant :
    ∀ (p q : List RE) (paths : List String) (net : Net) (site : String),
      p.Perm q → findPolicyUrlWith p paths net site = findPolicyUrlWith q paths net site :=
  fun _ _ paths net site h => findPolicyUrlWith_perm h paths net site

theorem c8_witness :
    (mainPatterns.reverse).Perm mainPatterns
    ∧ findPolicyUrlWith mainPatterns.reverse mainPaths demoNet "example.com"
        = findPolicyUrlWith mainPatterns mainPaths demoNet "example.com" :=
  ⟨List.reverse_perm mainPatterns,
   c8_pattern_order_irrelevant mainPatterns.reverse mainPatterns mainPaths demoNet
     "example.com" (List.reverse_perm mainPatterns)⟩

theorem truncMain_long (s : List Char) (h : 50000 < s.length) :
    (truncMain s).length = 50000 + markerMain.length
    ∧ (truncMain s).take 50000 = s.take 50000
    ∧ (truncMain s).drop 50000 = markerMain := by
  have ht : (s.take 50000).length = 50000 := by
    rw [List.length_take]
    omega
  unfold truncMain
  rw [if_pos h]
  exact ⟨by rw [List.length_append, ht], List.take_left' ht, List.drop_left' ht⟩

theorem truncMain_short (s : List Char) (h : s.length ≤ 50000) :
    truncMain s = s := by
  unfold truncMain
  rw [if_neg (by omega)]

theorem truncNew_long (s : List Char) (h : 50000 < s.length) :
    (truncNew s).length = 50000 + markerNew.length
    ∧ (truncNew s).take 50000 = s.take 50000
    ∧ (truncNew s).drop 50000 = markerNew := by
  have ht : (s.take 50000).length = 50000 := by
    rw [List.length_take]
    omega
  unfold truncNew
  rw [if_pos h]
  exact ⟨by rw [List.length_append, ht], List.take_left' ht, List.drop_left' ht⟩

theorem truncNew_short (s : List Char) (h : s.length ≤ 50000) :
    truncNew s = s := by
  unfold truncNew
  rw [if_neg (by omega), List.take_of_length_le h, List.append_nil]

/-- C3 counterexample: on a 50001-character cleaned text, `new_main.py`'s
extractor output has length 50015 (its marker is the 15-character
`... [Truncated]`), not 50000 plus the length of the claimed literal
`... [Content truncated]` (which is 23). -/
theorem c3_truncation_cex :
    (truncNew (List.replicate 50001 'a')).length = 50015
    ∧ (50015 : Nat) ≠ 50000 + markerMain.length := by
  constructor
  · have h : (50000 : Nat) < (List.replicate 50001 'a').length := by
      rw [List.length_replicate]
      omega
    have hm : markerNew.length = 15 := by decide
    unfold truncNew
    rw [if_pos h, List.length_append, List.length_take, hm, List.length_replicate]
    omega
  · decide

/-- C3 amended: each implementation truncates cleaned text beyond 50000
characters to its first 50000 characters followed by that
implementation's literal marker — `... [Content truncated]` in
`main.py`, `... [Truncated]` in `new_main.py` — so the output length is
50000 plus that marker's length; shorter texts pass through unchanged
with no marker. -/
theorem c3_truncation_amended :
    (∀ s : List Char, 50000 < s.length →
      (truncMain s).length = 50000 + markerMain.length
      ∧ (truncMain s).take 50000 = s.take 50000
      ∧ (truncMain s).drop 50000 = markerMain)
    ∧ (∀ s : List Char, s.length ≤ 50000 → truncMain s = s)
    ∧ (∀ s : List Char, 50000 < s.length →
      (truncNew s).length = 50000 + markerNew.length
      ∧ (truncNew s).take 50000 = s.take 50000
      ∧ (truncNew s).drop 50000 = markerNew)
    ∧ (∀ s : List Char, s.length ≤ 50000 → truncNew s = s) :=
  ⟨truncMain_long, truncMain_short, truncNew_long, truncNew_short⟩

theorem c3_witness :
    50000 < (List.replicate 50001 'b').length
    ∧ (truncMain (List.replicate 50001 'b')).length = 50000 + markerMain.length :=
  ⟨by rw [List.length_replicate]; omega,
   (c3_truncation_amended.1 (List.replicate 50001 'b')
     (by rw [List.length_replicate]; omega)).1⟩

theorem bestOf_all_nil :
    ∀ (ts : List (List Char)), (∀ t ∈ ts, t = []) → bestOf [] ts = [] := by
  intro ts
  induction ts with
  | nil => intro _; rfl
  | cons t ts ih =>
    intro h
    have ht : t = [] := h t (by simp)
    subst ht
    have hstep : bestOf [] (([] : List Char) :: ts) = bestOf [] ts := by
      simp [bestOf]
    rw [hstep]
    exact ih (fun x hx => h x (by simp [hx]))

theorem primaryMain_first_match :
    ∀ (doc : String → List (List Char)) (pre : List String) (sel : String)
      (post : List String) (acc : List Char),
      (∀ s ∈ pre, doc s = []) → doc sel ≠ [] →
      primaryMain doc (pre ++ sel :: post) acc = bestOf acc (doc sel) := by
  intro doc pre
  induction pre with
  | nil =>
    intro sel post acc _ hsel
    simp [primaryMain, hsel]
  | cons p pre ih =>
    intro sel post acc hpre hsel
    have hp : doc p = [] := hpre p (by simp)
    have hstep : primaryMain doc ((p :: pre) ++ sel :: post) acc
        = primaryMain doc (pre ++ sel :: post) acc := by
      simp [primaryMain, hp]
    rw [hstep]
    exact ih sel post acc (fun s hs => hpre s (by simp [hs])) hsel

theorem primaryNew_scan :
    ∀ (doc : String → List (List Char)) (pre : List String) (sel : String)
      (post : List String),
      (∀ s ∈ pre, ∀ t ∈ doc s, t = []) → bestOf [] (doc sel) ≠ [] →
      primaryNew doc (pre ++ sel :: post) [] = bestOf [] (doc sel) := by
  intro doc pre
  induction pre with
  | nil =>
    intro sel post _ hsel
    simp [primaryNew, hsel]
  | cons p pre ih =>
    intro sel post hpre hsel
    have hp : bestOf [] (doc p) = [] := bestOf_all_nil (doc p) (hpre p (by simp))
    have hstep : primaryNew doc ((p :: pre) ++ sel :: post) []
        = primaryNew doc (pre ++ sel :: post) [] := by
      simp [primaryNew, hp]
    rw [hstep]
    exact ih sel post (fun s hs => hpre s (by simp [hs])) hsel

/-- C4 counterexample: on `emptyMainDoc`, the first selector of
`new_main.py`'s list (`main`) has a matching node, and the longest text
among its matches is empty — yet `new_main.py`'s extractor keeps
scanning and returns `hello` from the later `[role="main"]` selector,
contradicting the claim that evaluation stops at the first selector
with a match. -/
theorem c4_selector_stop_cex :
    primaryNew emptyMainDoc newSelectors [] = ("hello").data
    ∧ emptyMainDoc "main" ≠ []
    ∧ bestOf [] (emptyMainDoc "main") = [] :=
  ⟨by decide, by decide, by decide⟩

/-- C4 amended: `main.py`'s primary strategy behaves as claimed — it
stops at the first selector with at least one matching node, even when
every matched text is empty, and yields the longest per-node text of
that selector, with later selectors never affecting the result;
`new_main.py`'s instead keeps the running longest text and only stops
once it is non-empty, so selectors whose matches all have empty text do
not stop its scan. -/
theorem c4_selector_stop_amended :
    (∀ (doc : String → List (List Char)) (pre : List String) (sel : String)
        (post : List String) (acc : List Char),
      (∀ s ∈ pre, doc s = []) → doc sel ≠ [] →
      primaryMain doc (pre ++ sel :: post) acc = bestOf acc (doc sel))
    ∧ (∀ (doc : String → List (List Char)) (pre : List String) (sel : String)
        (post : List String),
      (∀ s ∈ pre, ∀ t ∈ doc s, t = []) → bestOf [] (doc sel) ≠ [] →
      primaryNew doc (pre ++ sel :: post) [] = bestOf [] (doc sel)) :=
  ⟨primaryMain_first_match, primaryNew_scan⟩

theorem c4_witness :
    (∀ s ∈ (["main", "[role=\"main\"]"] : List String), contentDoc s = [])
    ∧ contentDoc ".content" ≠ []
    ∧ primaryMain contentDoc
        (["main", "[role=\"main\"]"] ++ ".content" :: [".policy-content", "article"]) []
        = bestOf [] (contentDoc ".content") :=
  ⟨by decide, by decide,
   c4_selector_stop_amended.1 contentDoc ["main", "[role=\"main\"]"] ".content"
     [".policy-content", "article"] [] (by decide) (by decide)⟩

theorem collapseWsFlag_space :
    ∀ (l : List Char) (b : Bool),
      (collapseWsFlag b l).all (fun c => c == ' ' || !isSpaceChar c) = true := by
  intro l
  induction l with
  | nil => intro b; rfl
  | cons c cs ih =>
    intro b
    by_cases h : isSpaceChar c
    · cases b <;> simp [collapseWsFlag, h, ih]
    · simp [collapseWsFlag, h, ih]

theorem head_dropWhileSpace (l : List Char) :
    (l.dropWhile isSpaceChar).head?.all (fun c => !isSpaceChar c) = true := by
  induction l with
  | nil => rfl
  | cons a t ih =>
    by_cases h : isSpaceChar a
    · simp only [List.dropWhile_cons_of_pos h]
      exact ih
    · simp [List.dropWhile_cons_of_neg h, h]

theorem getLast_dropWhileSpace :
    ∀ (l : List Char), l.dropWhile isSpaceChar ≠ [] →
      (l.dropWhile isSpaceChar).getLast? = l.getLast? := by
  intro l
  induction l with
  | nil => intro h; exact absurd rfl h
  | cons a t ih =>
    intro h
    by_cases ha : isSpaceChar a
    · rw [List.dropWhile_cons_of_pos ha] at h ⊢
      have ht : t ≠ [] := by
        intro he
        rw [he] at h
        exact h rfl
      cases t with
      | nil => exact absurd rfl ht
      | cons b t2 =>
        rw [List.getLast?_cons_cons]
        exact ih h
    · rw [List.dropWhile_cons_of_neg ha]

theorem pyStrip_edge (l : List Char) :
    ((pyStrip l).head?.all (fun c => !isSpaceChar c)
      && (pyStrip l).getLast?.all (fun c => !isSpaceChar c)) = true := by
  unfold pyStrip
  rw [Bool.and_eq_true]
  constructor
  · rw [List.head?_reverse]
    by_cases hz : (l.dropWhile isSpaceChar).reverse.dropWhile isSpaceChar = []
    · simp [hz]
    · rw [getLast_dropWhileSpace _ hz, List.getLast?_reverse]
      exact head_dropWhileSpace l
  · rw [List.getLast?_reverse]
    exact head_dropWhileSpace _

/-- C5 counterexample: `main.py`'s post-processing applied to
`" a\n\n\nb "` returns `" a b "` — leading and trailing whitespace is
kept as a space (and the newline run survives only as a space, not as
two newlines), contradicting the claim that the returned text has no
leading or trailing whitespace. -/
theorem c5_postprocess_cex :
    postProcessMain ((" a\n\n\nb ").data) = ((" a b ").data)
    ∧ ((" a b ").data).head? = some ' '
    ∧ isSpaceChar ' ' = true :=
  ⟨by decide, by decide, by decide⟩

/-- C5 amended: `main.py`'s clean-up collapses every whitespace run —
newline runs included — to a single space, so no newline pair survives
and leading/trailing whitespace becomes a single space rather than
being removed; `new_main.py`'s clean-up collapses runs of two or more
newlines to exactly two and strips leading/trailing whitespace, but
leaves other whitespace runs (such as double spaces) intact. -/
theorem c5_postprocess_amended :
    (∀ l : List Char,
      (postProcessMain l).all (fun c => c == ' ' || !isSpaceChar c) = true)
    ∧ postProcessMain ((" a\n\n\nb ").data) = ((" a b ").data)
    ∧ (∀ l : List Char,
      ((postProcessNew l).head?.all (fun c => !isSpaceChar c)
        && (postProcessNew l).getLast?.all (fun c => !isSpaceChar c)) = true)
    ∧ postProcessNew (("a  b\n\n\n c ").data) = (("a  b\n\n c").data) :=
  ⟨fun l => collapseWsFlag_space (sub1 l) false, by decide,
   fun l => pyStrip_edge (subNl2 l), by decide⟩

theorem worker_status_main (resolve : String → Option String)
    (getText : String → Option (List Char)) (cf : String → String) (site : String) :
    ((scrape_single_site resolve getText cf site).status = "success"
      ↔ ((scrape_single_site resolve getText cf site).text ≠ []
          ∧ 100 ≤ (pyStrip (scrape_single_site resolve getText cf site).text).length))
    ∧ ((scrape_single_site resolve getText cf site).status = "success"
        → (scrape_single_site resolve getText cf site).policy_url ≠ "") := by
  cases hr : resolve site with
  | none =>
    simp only [scrape_single_site, hr]
    exact ⟨by decide, fun h => absurd h (by decide)⟩
  | some pu =>
    by_cases hpu : pu = ""
    · simp only [scrape_single_site, hr, if_pos hpu]
      exact ⟨by decide, fun h => absurd h (by decide)⟩
    · simp only [scrape_single_site, hr, if_neg hpu]
      cases hgt : getText pu with
      | none =>
        simp only [hgt]
        exact ⟨⟨fun h => absurd h (by decide), fun hx => (hx.1 rfl).elim⟩,
               fun h => absurd h (by decide)⟩
      | some t =>
        simp only [hgt]
        by_cases hc : t ≠ [] ∧ 100 < (pyStrip t).length
        · rw [if_pos hc]
          exact ⟨⟨fun _ => ⟨hc.1, Nat.le_of_lt hc.2⟩, fun _ => rfl⟩, fun _ => hpu⟩
        · simp only [if_neg hc]
          exact ⟨⟨fun h => absurd h (by decide), fun hx => (hx.1 rfl).elim⟩,
                 fun h => absurd h (by decide)⟩

theorem worker_status_new (resolve : String → Option String)
    (getText : String → Option (List Char)) (cf : String → String) (site : String) :
    ((scrape_site resolve getText cf site).status = "success"
      ↔ ((scrape_site resolve getText cf site).text ≠ []
          ∧ 100 ≤ (pyStrip (scrape_site resolve getText cf site).text).length))
    ∧ ((scrape_site resolve getText cf site).status = "success"
        → (scrape_site resolve getText cf site).policy_url ≠ "") := by
  cases hr : resolve site with
  | none =>
    simp only [scrape_site, hr]
    exact ⟨by decide, fun h => absurd h (by decide)⟩
  | some pu =>
    by_cases hpu : pu = ""
    · simp only [scrape_site, hr, if_pos hpu]
      exact ⟨by decide, fun h => absurd h (by decide)⟩
    · simp only [scrape_site, hr, if_neg hpu]
      cases hgt : getText pu with
      | none =>
        simp only [hgt]
        exact ⟨⟨fun h => absurd h (by decide), fun hx => (hx.1 rfl).elim⟩,
               fun h => absurd h (by decide)⟩
      | some t =>
        simp only [hgt]
        by_cases hc : t = [] ∨ (pyStrip t).length < 100
        · simp only [if_pos hc]
          exact ⟨⟨fun h => absurd h (by decide), fun hx => (hx.1 rfl).elim⟩,
                 fun h => absurd h (by decide)⟩
        · rw [if_neg hc]
          have h1 : t ≠ [] := fun he => hc (Or.inl he)
          have h2 : 100 ≤ (pyStrip t).length :=
            Nat.le_of_not_lt (fun hl => hc (Or.inr hl))
          exact ⟨⟨fun _ => ⟨h1, h2⟩, fun _ => rfl⟩, fun _ => hpu⟩

/-- C1 counterexample: a Result produced by `main.py`'s Site Worker from
a real resolver/extractor run — homepage anchor `/privacy`, policy page
whose `main` text is the two-character `hi` — has an empty text field
and status `text_extraction_failed`, yet a non-empty policyURL, so the
claimed pairwise equivalence of the three conditions fails. -/
theorem c1_status_cex :
    scrape_single_site (find_privacy_policy_url tinyPolicyNet)
        (get_policy_text tinyPolicyDoc) cfExample "example.com"
      = { company := "Example", site := "example.com",
          policy_url := "https://example.com/privacy", text := [],
          status := "text_extraction_failed" }
    ∧ ("https://example.com/privacy" : String) ≠ ""
    ∧ ("text_extraction_failed" : String) ≠ "success" :=
  ⟨by decide, by decide, by decide⟩

/-- C1 amended: for every Result either Site Worker produces,
`status = success` iff the text field is non-empty with trimmed length
at least 100, and `status = success` implies the policyURL field is
non-empty — but the converse of the latter fails, since
`text_extraction_failed` / `text_too_short` Results keep their resolved
(non-empty) policyURL while their text field is blanked. -/
theorem c1_status_amended :
    ∀ (resolve : String → Option String) (getText : String → Option (List Char))
      (cf : String → String) (site : String),
      ((scrape_single_site resolve getText cf site).status = "success"
        ↔ ((scrape_single_site resolve getText cf site).text ≠ []
            ∧ 100 ≤ (pyStrip (scrape_single_site resolve getText cf site).text).length))
      ∧ ((scrape_single_site resolve getText cf site).status = "success"
          → (scrape_single_site resolve getText cf site).policy_url ≠ "")
      ∧ ((scrape_site resolve getText cf site).status = "success"
        ↔ ((scrape_site resolve getText cf site).text ≠ []
            ∧ 100 ≤ (pyStrip (scrape_site resolve getText cf site).text).length))
      ∧ ((scrape_site resolve getText cf site).status = "success"
          → (scrape_site resolve getText cf site).policy_url ≠ "") :=
  fun resolve getText cf site =>
    ⟨(worker_status_main resolve getText cf site).1,
     (worker_status_main resolve getText cf site).2,
     (worker_status_new resolve getText cf site).1,
     (worker_status_new resolve getText cf site).2⟩

theorem c1_witness :
    (scrape_single_site resolveSome longTextOracle cfW "w.example").status = "success"
    ∧ (scrape_single_site resolveSome longTextOracle cfW "w.example").policy_url ≠ "" :=
  ⟨by decide,
   (c1_status_amended resolveSome longTextOracle cfW "w.example").2.1 (by decide)⟩

/-- C2: for every input list of N sites, the batch run returns exactly
N Results — the i-th coming from the i-th site — and a fault inside any
single site's worker never aborts the batch: `main.py`'s coordinator
converts the fault into an `exception:`-status Result for that site, and
in `new_main.py` the worker's own guard converts it into an
`error:`-status Result, so the coordinator still collects one Result per
site. -/
theorem c2_batch_cardinality :
    (∀ (cf : String → String) (worker : String → Except String ResultR)
        (sites : List String) (i : Nat),
      (scrape_privacy_policies cf worker sites)[i]?
        = (sites[i]?).map (fun s => collectResult cf s (worker s)))
    ∧ (∀ (cf : String → String) (worker : String → Except String ResultR)
        (sites : List String),
      (scrape_privacy_policies cf worker sites).length = sites.length)
    ∧ (∀ (cf : String → String) (worker : String → Except String ResultR)
        (sites : List String) (site : String) (e : String),
      site ∈ sites → worker site = Except.error e →
      ({ company := cf site, site := site, policy_url := "", text := [],
         status := "exception: " ++ e } : ResultR)
        ∈ scrape_privacy_policies cf worker sites)
    ∧ (∀ (worker : String → ResultR) (sites : List String),
      (scrape_all worker sites).length = sites.length)
    ∧ (∀ (cf : String → String) (body : String → Except String ResultR)
        (sites : List String) (site : String) (e : String),
      site ∈ sites → body site = Except.error e →
      ({ company := cf site, site := site, policy_url := "", text := [],
         status := "error: " ++ e } : ResultR)
        ∈ scrape_all (fun s => workerGuard cf s (body s)) sites) := by
  refine ⟨?_, ?_, ?_, ?_, ?_⟩
  · intro cf worker sites i
    simp [scrape_privacy_policies]
  · intro cf worker sites
    simp [scrape_privacy_policies]
  · intro cf worker sites site e hmem hw
    have h : collectResult cf site (worker site)
        ∈ List.map (fun s => collectResult cf s (worker s)) sites :=
      List.mem_map_of_mem (fun s => collectResult cf s (worker s)) hmem
    rw [hw] at h
    exact h
  · intro worker sites
    simp [scrape_all]
  · intro cf body sites site e hmem hw
    have h : workerGuard cf site (body site)
        ∈ List.map (fun s => workerGuard cf s (body s)) sites :=
      List.mem_map_of_mem (fun s => workerGuard cf s (body s)) hmem
    rw [hw] at h
    exact h

theorem c2_witness :
    "bad.test" ∈ demoSites
    ∧ demoWorker "bad.test" = Except.error "boom"
    ∧ ({ company := "X", site := "bad.test", policy_url := "", text := [],
         status := "exception: " ++ "boom" } : ResultR)
        ∈ scrape_privacy_policies cfBatch demoWorker demoSites :=
  ⟨by decide, rfl,
   c2_batch_cardinality.2.2.1 cfBatch demoWorker demoSites "bad.test" "boom"
     (by decide) rfl⟩

/-- C6 counterexample: for the site `unreachable.test` whose initial GET
fails (and whose HEAD oracle would report 200 everywhere, were it ever
consulted), `new_main.py`'s worker produces the Result with status
`not_found` — not the `policy_not_found` literal the claim states for
every Result of this kind. -/
theorem c6_notfound_cex :
    scrape_site (find_policy_url { get := getFail, head := head200 }) gtNone
        cfUnreach "unreachable.test"
      = { company := "Unreachable", site := "unreachable.test", policy_url := "",
          text := [], status := "not_found" }
    ∧ ("not_found" : String) ≠ "policy_not_found" :=
  ⟨by decide, by decide⟩

/-- C6 amended: when the initial GET of the normalized homepage URL
fails, both resolvers return `none` immediately — for every pattern
list, path list and HEAD oracle, so no anchor scan or fallback probing
can influence the outcome — and the site's Result has empty policyURL
and text, with status `policy_not_found` in `main.py` and `not_found`
in `new_main.py`. -/
theorem c6_get_failure_amended :
    ∀ (g : String → Option (List Anchor)) (h1 h2 : String → Option Nat)
      (gt : String → Option (List Char)) (cf : String → String) (site : String),
      g (normalize_url site) = none →
      (∀ (pats : List RE) (paths : List String),
        findPolicyUrlWith pats paths { get := g, head := h1 } site = none)
      ∧ scrape_single_site (find_privacy_policy_url { get := g, head := h1 }) gt cf site
          = { company := cf site, site := site, policy_url := "", text := [],
              status := "policy_not_found" }
      ∧ scrape_site (find_policy_url { get := g, head := h2 }) gt cf site
          = { company := cf site, site := site, policy_url := "", text := [],
              status := "not_found" } := by
  intro g h1 h2 gt cf site hg
  have hnone1 : ∀ (pats : List RE) (paths : List String),
      findPolicyUrlWith pats paths { get := g, head := h1 } site = none := by
    intro pats paths
    unfold findPolicyUrlWith
    simp [hg]
  have hnone2 : ∀ (pats : List RE) (paths : List String),
      findPolicyUrlWith pats paths { get := g, head := h2 } site = none := by
    intro pats paths
    unfold findPolicyUrlWith
    simp [hg]
  refine ⟨hnone1, ?_, ?_⟩
  · unfold scrape_single_site find_privacy_policy_url
    rw [hnone1 mainPatterns mainPaths]
  · unfold scrape_site find_policy_url
    rw [hnone2 newPatterns newPaths]

theorem c6_witness :
    getFail (normalize_url "unreachable.example") = none
    ∧ scrape_single_site (find_privacy_policy_url { get := getFail, head := head200 })
        gtNone cfUnreach "unreachable.example"
        = { company := "Unreachable", site := "unreachable.example", policy_url := "",
            text := [], status := "policy_not_found" } :=
  ⟨rfl,
   (c6_get_failure_amended getFail head200 head200 gtNone cfUnreach
     "unreachable.example" rfl).2.1⟩
